import Mathlib

/-!
Verification of the ai-pr-reviewer pipeline: a shallow embedding of the
Python sources (`ai_analyzer.py`, `config_manager.py`,
`github_integration.py`, `repomix_handler.py`) as executable Lean
definitions, together with theorems settling the behavioural claims about
response parsing, line-comment mapping, config merging, focus-tag
extraction, error propagation and working-directory restoration.

Python dynamic values (the results of `json.loads`, config dicts, review
suggestions) are modelled by the inductive type `Json`; Python dicts are
association lists with first-match lookup and in-place update, which is
how CPython dicts behave observably (unique keys, insertion order).
-/

set_option maxRecDepth 100000

/-- Model of a Python/JSON dynamic value.  Numbers are integers: the
program only ever manipulates integer line numbers and token budgets. -/
inductive Json where
  | null : Json
  | bool : Bool → Json
  | num : Int → Json
  | str : String → Json
  | arr : List Json → Json
  | obj : List (String × Json) → Json
deriving Repr

mutual

/-- Decidable equality on `Json` (the derive handler does not support
this nested inductive). -/
def jsonDecEq : (a b : Json) → Decidable (a = b)
  | Json.null, Json.null => isTrue rfl
  | Json.bool a, Json.bool b =>
      match decEq a b with
      | isTrue h => isTrue (by rw [h])
      | isFalse h => isFalse (by intro hh; injection hh; contradiction)
  | Json.num a, Json.num b =>
      match decEq a b with
      | isTrue h => isTrue (by rw [h])
      | isFalse h => isFalse (by intro hh; injection hh; contradiction)
  | Json.str a, Json.str b =>
      match decEq a b with
      | isTrue h => isTrue (by rw [h])
      | isFalse h => isFalse (by intro hh; injection hh; contradiction)
  | Json.arr a, Json.arr b =>
      match jsonListDecEq a b with
      | isTrue h => isTrue (by rw [h])
      | isFalse h => isFalse (by intro hh; injection hh; contradiction)
  | Json.obj a, Json.obj b =>
      match jsonEntriesDecEq a b with
      | isTrue h => isTrue (by rw [h])
      | isFalse h => isFalse (by intro hh; injection hh; contradiction)
  | Json.null, Json.bool _ => isFalse nofun
  | Json.null, Json.num _ => isFalse nofun
  | Json.null, Json.str _ => isFalse nofun
  | Json.null, Json.arr _ => isFalse nofun
  | Json.null, Json.obj _ => isFalse nofun
  | Json.bool _, Json.null => isFalse nofun
  | Json.bool _, Json.num _ => isFalse nofun
  | Json.bool _, Json.str _ => isFalse nofun
  | Json.bool _, Json.arr _ => isFalse nofun
  | Json.bool _, Json.obj _ => isFalse nofun
  | Json.num _, Json.null => isFalse nofun
  | Json.num _, Json.bool _ => isFalse nofun
  | Json.num _, Json.str _ => isFalse nofun
  | Json.num _, Json.arr _ => isFalse nofun
  | Json.num _, Json.obj _ => isFalse nofun
  | Json.str _, Json.null => isFalse nofun
  | Json.str _, Json.bool _ => isFalse nofun
  | Json.str _, Json.num _ => isFalse nofun
  | Json.str _, Json.arr _ => isFalse nofun
  | Json.str _, Json.obj _ => isFalse nofun
  | Json.arr _, Json.null => isFalse nofun
  | Json.arr _, Json.bool _ => isFalse nofun
  | Json.arr _, Json.num _ => isFalse nofun
  | Json.arr _, Json.str _ => isFalse nofun
  | Json.arr _, Json.obj _ => isFalse nofun
  | Json.obj _, Json.null => isFalse nofun
  | Json.obj _, Json.bool _ => isFalse nofun
  | Json.obj _, Json.num _ => isFalse nofun
  | Json.obj _, Json.str _ => isFalse nofun
  | Json.obj _, Json.arr _ => isFalse nofun

/-- Decidable equality on lists of `Json`. -/
def jsonListDecEq : (a b : List Json) → Decidable (a = b)
  | [], [] => isTrue rfl
  | [], _ :: _ => isFalse nofun
  | _ :: _, [] => isFalse nofun
  | a :: as, b :: bs =>
      match jsonDecEq a b with
      | isFalse h => isFalse (by intro hh; injection hh; contradiction)
      | isTrue h1 =>
          match jsonListDecEq as bs with
          | isTrue h2 => isTrue (by rw [h1, h2])
          | isFalse h => isFalse (by intro hh; injection hh; contradiction)

/-- Decidable equality on association lists of `Json`. -/
def jsonEntriesDecEq : (a b : List (String × Json)) → Decidable (a = b)
  | [], [] => isTrue rfl
  | [], _ :: _ => isFalse nofun
  | _ :: _, [] => isFalse nofun
  | (k1, v1) :: as, (k2, v2) :: bs =>
      match decEq k1 k2 with
      | isFalse h => isFalse (by intro hh; injection hh with h1 h2; injection h1; contradiction)
      | isTrue hk =>
          match jsonDecEq v1 v2 with
          | isFalse h => isFalse (by intro hh; injection hh with h1 h2; injection h1; contradiction)
          | isTrue hv =>
              match jsonEntriesDecEq as bs with
              | isTrue h2 => isTrue (by rw [hk, hv, h2])
              | isFalse h => isFalse (by intro hh; injection hh; contradiction)

end

instance : DecidableEq Json := jsonDecEq

instance {e a : Type} [DecidableEq e] [DecidableEq a] : DecidableEq (Except e a) := fun x y =>
  match x, y with
  | Except.ok v, Except.ok w =>
      match decEq v w with
      | isTrue h => isTrue (by rw [h])
      | isFalse h => isFalse (by intro hh; injection hh; contradiction)
  | Except.error v, Except.error w =>
      match decEq v w with
      | isTrue h => isTrue (by rw [h])
      | isFalse h => isFalse (by intro hh; injection hh; contradiction)
  | Except.ok _, Except.error _ => isFalse nofun
  | Except.error _, Except.ok _ => isFalse nofun

/-- First-match lookup, the observable behaviour of `d[k]` / `k in d`
on a Python dict whose keys are unique. -/
def dictGet (l : List (String × Json)) (k : String) : Option Json :=
  match l with
  | [] => none
  | (k', v) :: rest => if k' = k then some v else dictGet rest k

/-- `d[k] = v` on a Python dict: replace the first binding of `k` if
present, otherwise append a new binding (insertion order). -/
def dictSet (l : List (String × Json)) (k : String) (v : Json) : List (String × Json) :=
  match l with
  | [] => [(k, v)]
  | (k', v') :: rest => if k' = k then (k, v) :: rest else (k', v') :: dictSet rest k v

/-- Lookup on a `Json` value that is expected to be an object (Python
`d.get(k)`); `none` on non-objects. -/
def jsonGet (j : Json) (k : String) : Option Json :=
  match j with
  | Json.obj l => dictGet l k
  | _ => none

/-- The Python whitespace set for `str.strip` and the regex class `\s`
(space, tab, newline, carriage return, vertical tab, form feed). -/
def pyIsSpace (c : Char) : Bool :=
  c = ' ' || c = '\t' || c = '\n' || c = '\r' || c = '\x0b' || c = '\x0c'

/-- Python `str.strip()`: remove leading and trailing whitespace. -/
def pyStrip (s : String) : String :=
  String.mk ((s.toList.dropWhile pyIsSpace).reverse.dropWhile pyIsSpace |>.reverse)

/-- Python `str.isdigit()` restricted to ASCII digits: true iff the
string is non-empty and all characters are digits. -/
def pyIsdigit (s : String) : Bool :=
  s.length > 0 && s.toList.all Char.isDigit

/-- Value of a string of decimal digits (Python `int(s)` on the strings
accepted by `isdigit`). -/
def strToInt (s : String) : Int :=
  Int.ofNat (s.toList.foldl (fun acc c => acc * 10 + c.toNat - 48) 0)

/-- Index of the first occurrence of `pat` in `s` (Python `s.find(pat)`
returning `none` for `-1`). -/
def findSubList (s pat : List Char) : Option Nat :=
  match s with
  | [] => if pat = [] then some 0 else none
  | _ :: rest =>
      if pat.isPrefixOf s then some 0
      else (findSubList rest pat).map (· + 1)

/-- Python `s.find(pat)` as an `Option`. -/
def findSub (s pat : String) : Option Nat :=
  findSubList s.toList pat.toList

/-- Index of the last occurrence of `pat` in `s` (Python `s.rfind(pat)`
returning `none` for `-1`). -/
def rfindSubList (s pat : List Char) : Option Nat :=
  match s with
  | [] => if pat = [] then some 0 else none
  | _ :: rest =>
      match (rfindSubList rest pat).map (· + 1) with
      | some i => some i
      | none => if pat.isPrefixOf s then some 0 else none

/-- Python `s.rfind(pat)` as an `Option`. -/
def rfindSub (s pat : String) : Option Nat :=
  rfindSubList s.toList pat.toList

/-- Python `pat in s` substring containment. -/
def strContains (s pat : String) : Bool :=
  (findSub s pat).isSome

/-- Python slice `s[a:b]` for non-negative bounds (empty when `b ≤ a`). -/
def pySlice (s : String) (a b : Nat) : String :=
  String.mk ((s.toList.drop a).take (b - a))

mutual

/-- Python `repr` of a dynamic value, as far as the program can observe
it (it is only ever inspected through `str(...)` for digit/hyphen
tests): `None`/`True`/`False`, decimal integers, single-quoted strings,
bracketed lists and braced dicts. -/
def pyRepr : Json → String
  | Json.null => "None"
  | Json.bool true => "True"
  | Json.bool false => "False"
  | Json.num n => toString n
  | Json.str s => "\x27" ++ s ++ "\x27"
  | Json.arr l => "[" ++ String.intercalate ", " (pyReprList l) ++ "]"
  | Json.obj l => "\x7b" ++ String.intercalate ", " (pyReprEntries l) ++ "\x7d"

/-- `repr` of the elements of a list value. -/
def pyReprList : List Json → List String
  | [] => []
  | j :: rest => pyRepr j :: pyReprList rest

/-- `repr` of the members of a dict value. -/
def pyReprEntries : List (String × Json) → List String
  | [] => []
  | (k, v) :: rest => ("\x27" ++ k ++ "\x27: " ++ pyRepr v) :: pyReprEntries rest

end

/-- Python `str(v)`: identical to `repr` except on strings, which print
without quotes. -/
def pyStrOf (j : Json) : String :=
  match j with
  | Json.str s => s
  | _ => pyRepr j

/-- Python truthiness of a dynamic value. -/
def pyTruthy (j : Json) : Bool :=
  match j with
  | Json.null => false
  | Json.bool b => b
  | Json.num n => n ≠ 0
  | Json.str s => s ≠ ""
  | Json.arr l => !l.isEmpty
  | Json.obj l => !l.isEmpty

/-- The whitespace skipped by the Python `json` module (space, tab,
newline, carriage return). -/
def jsonWs (c : Char) : Bool :=
  c = ' ' || c = '\t' || c = '\n' || c = '\r'

/-- Value of a hexadecimal digit, for `\uXXXX` escapes. -/
def hexVal (c : Char) : Option Nat :=
  if '0' ≤ c ∧ c ≤ '9' then some (c.toNat - 48)
  else if 'a' ≤ c ∧ c ≤ 'f' then some (c.toNat - 87)
  else if 'A' ≤ c ∧ c ≤ 'F' then some (c.toNat - 55)
  else none

/-- Body of a JSON string literal (the opening quote already consumed):
plain characters, the standard escapes, and `\uXXXX`; unescaped control
characters are rejected as the strict Python decoder does. -/
def jsonParseStr (fuel : Nat) (l : List Char) (acc : List Char) :
    Except String (String × List Char) :=
  match fuel with
  | 0 => Except.error "out of fuel"
  | fuel + 1 =>
    match l with
    | [] => Except.error "Unterminated string"
    | '"' :: rest => Except.ok (String.mk acc.reverse, rest)
    | '\\' :: esc =>
        match esc with
        | '"' :: rest => jsonParseStr fuel rest ('"' :: acc)
        | '\\' :: rest => jsonParseStr fuel rest ('\\' :: acc)
        | '/' :: rest => jsonParseStr fuel rest ('/' :: acc)
        | 'b' :: rest => jsonParseStr fuel rest ('\x08' :: acc)
        | 'f' :: rest => jsonParseStr fuel rest ('\x0c' :: acc)
        | 'n' :: rest => jsonParseStr fuel rest ('\n' :: acc)
        | 'r' :: rest => jsonParseStr fuel rest ('\r' :: acc)
        | 't' :: rest => jsonParseStr fuel rest ('\t' :: acc)
        | 'u' :: rest =>
            match rest.take 4 |>.mapM hexVal with
            | some [a, b, c, d] =>
                jsonParseStr fuel (rest.drop 4)
                  (Char.ofNat (((a * 16 + b) * 16 + c) * 16 + d) :: acc)
            | _ => Except.error "Invalid unicode escape"
        | _ => Except.error "Invalid escape"
    | c :: rest =>
        if c.toNat < 32 then Except.error "Invalid control character"
        else jsonParseStr fuel rest (c :: acc)

/-- A JSON number token.  Only integer literals are modelled (an
integer followed by `.`, `e` or `E` is rejected rather than parsed as a
float); the program never produces or consumes non-integer numbers. -/
def jsonParseNum (l : List Char) : Except String (Json × List Char) :=
  let neg := l.headD 'x' = '-'
  let l1 := if neg then l.drop 1 else l
  match l1.headD 'x' with
  | c =>
    if !c.isDigit then Except.error "Expecting value"
    else
      let digits := l1.takeWhile Char.isDigit
      let tok := if c = '0' && digits.length > 1 then ['0'] else digits
      let rest := l1.drop tok.length
      if rest.headD 'x' = '.' || rest.headD 'x' = 'e' || rest.headD 'x' = 'E' then
        Except.error "float literals outside model"
      else
        let v : Int := strToInt (String.mk tok)
        Except.ok (Json.num (if neg then -v else v), rest)

mutual

/-- One JSON value starting at `l` (leading whitespace allowed),
returning the value and the unconsumed remainder. -/
def jsonParseValue (fuel : Nat) (l : List Char) : Except String (Json × List Char) :=
  match fuel with
  | 0 => Except.error "out of fuel"
  | fuel + 1 =>
    let l := l.dropWhile jsonWs
    match l with
    | [] => Except.error "Expecting value"
    | 'n' :: rest =>
        if rest.take 3 = ['u', 'l', 'l'] then Except.ok (Json.null, rest.drop 3)
        else Except.error "Expecting value"
    | 't' :: rest =>
        if rest.take 3 = ['r', 'u', 'e'] then Except.ok (Json.bool true, rest.drop 3)
        else Except.error "Expecting value"
    | 'f' :: rest =>
        if rest.take 4 = ['a', 'l', 's', 'e'] then Except.ok (Json.bool false, rest.drop 4)
        else Except.error "Expecting value"
    | '"' :: rest =>
        match jsonParseStr fuel rest [] with
        | Except.error e => Except.error e
        | Except.ok (s, r) => Except.ok (Json.str s, r)
    | '[' :: rest =>
        match rest.dropWhile jsonWs with
        | ']' :: r2 => Except.ok (Json.arr [], r2)
        | r1 => jsonParseElems fuel [] r1
    | '{' :: rest =>
        match rest.dropWhile jsonWs with
        | '}' :: r2 => Except.ok (Json.obj [], r2)
        | r1 => jsonParseMembers fuel [] r1
    | c :: _ =>
        if c = '-' || c.isDigit then jsonParseNum l else Except.error "Expecting value"

/-- Comma-separated array elements, terminated by `]`. -/
def jsonParseElems (fuel : Nat) (acc : List Json) (l : List Char) :
    Except String (Json × List Char) :=
  match fuel with
  | 0 => Except.error "out of fuel"
  | fuel + 1 =>
    match jsonParseValue fuel l with
    | Except.error e => Except.error e
    | Except.ok (v, r) =>
      match r.dropWhile jsonWs with
      | ',' :: r2 => jsonParseElems fuel (acc ++ [v]) r2
      | ']' :: r2 => Except.ok (Json.arr (acc ++ [v]), r2)
      | _ => Except.error "Expecting comma"

/-- Comma-separated object members (`"key": value`), terminated by `}`;
a duplicated key overwrites the earlier binding as in a Python dict. -/
def jsonParseMembers (fuel : Nat) (acc : List (String × Json)) (l : List Char) :
    Except String (Json × List Char) :=
  match fuel with
  | 0 => Except.error "out of fuel"
  | fuel + 1 =>
    match l with
    | '"' :: rest =>
        match jsonParseStr fuel rest [] with
        | Except.error e => Except.error e
        | Except.ok (k, r) =>
          match r.dropWhile jsonWs with
          | ':' :: r2 =>
              match jsonParseValue fuel r2 with
              | Except.error e => Except.error e
              | Except.ok (v, r3) =>
                match r3.dropWhile jsonWs with
                | ',' :: r4 => jsonParseMembers fuel (dictSet acc k v) (r4.dropWhile jsonWs)
                | '}' :: r4 => Except.ok (Json.obj (dictSet acc k v), r4)
                | _ => Except.error "Expecting comma"
          | _ => Except.error "Expecting colon"
    | _ => Except.error "Expecting property name"

end

/-- Model of Python `json.loads`: parse one JSON document and reject
trailing non-whitespace (`Extra data`), raising (returning `error`) on
anything else. -/
def jsonLoads (s : String) : Except String Json :=
  match jsonParseValue (2 * s.length + 8) s.toList with
  | Except.error e => Except.error e
  | Except.ok (v, rest) =>
      if (rest.dropWhile jsonWs).isEmpty then Except.ok v
      else Except.error "Extra data"

/-- `AIAnalyzer._parse_ai_response` (ai_analyzer.py 149-178),
parameterised by the JSON decoder `loads` (Python `json.loads`, which
raises = returns `error`).  The code finds the first occurrence of
the ```json marker and the last occurrence of ``` (`str.rfind`), strips
the slice between them and decodes it; a decode failure there is caught
by the outer handler.  With no ```json marker it decodes the whole
reply, absorbing failure in the inner handler.  The function is total:
no input raises. -/
def parse_ai_response (loads : String → Except String Json) (ai_response : String) : Json :=
  match findSub ai_response "```json", rfindSub ai_response "```" with
  | some json_start, some json_end =>
      let json_content := pyStrip (pySlice ai_response (json_start + 7) json_end)
      match loads json_content with
      | Except.ok j => j
      | Except.error e =>
          Json.obj [("summary", Json.str ("解析 AI 回應時出錯: " ++ e)),
                    ("overall_assessment", Json.str "無法確定"),
                    ("raw_response", Json.str ai_response)]
  | _, _ =>
      match loads ai_response with
      | Except.ok j => j
      | Except.error _ =>
          Json.obj [("summary", Json.str "無法解析 AI 回應為 JSON 格式"),
                    ("overall_assessment", Json.str "無法確定"),
                    ("raw_response", Json.str ai_response)]

/-- The part of an LLM HTTP response that `analyze_code` inspects:
status code, body text, and the decoded JSON body (`response.json()`). -/
structure HttpResponse where
  status_code : Nat
  text : String
  body : Except String Json

/-- `AIAnalyzer.analyze_code` (ai_analyzer.py 42-81) from the point the
HTTP response is available: a non-200 status raises
`Exception(f"AI API 調用失敗: {response.status_code}")`, which the outer
handler logs and re-raises; otherwise the reply text at
`result["content"][0]["text"]` is parsed.  Responses whose `text` field
is not a string are outside the modelled domain. -/
def analyze_code (loads : String → Except String Json) (resp : HttpResponse) :
    Except String Json :=
  if resp.status_code ≠ 200 then
    Except.error ("AI API 調用失敗: " ++ toString resp.status_code)
  else
    match resp.body with
    | Except.error e => Except.error e
    | Except.ok result =>
        match jsonGet result "content" with
        | some (Json.arr (c0 :: _)) =>
            match jsonGet c0 "text" with
            | some (Json.str t) => Except.ok (parse_ai_response loads t)
            | _ => Except.error "KeyError"
        | _ => Except.error "KeyError"

/-- Python `isinstance(x, (int, str))`: `bool` is a subclass of `int`. -/
def isIntOrStr : Json → Bool
  | Json.num _ => true
  | Json.str _ => true
  | Json.bool _ => true
  | _ => false

/-- Python `s.split("-")[0]`: the prefix of `s` before its first
hyphen (all of `s` when there is none). -/
def firstHyphenPart (s : String) : String :=
  String.mk (s.toList.takeWhile (fun c => c ≠ '-'))

/-- Line-number resolution of `GitHubIntegration.post_line_comments`
(github_integration.py 137-145): an int or digit-only string is used
directly; otherwise, if `str(line_info)` contains a hyphen, the stripped
part before the first hyphen is used when it is digit-only; otherwise no
line number is resolved. -/
def line_anchor (line_info : Json) : Option Int :=
  let s := pyStrOf line_info
  if isIntOrStr line_info && pyIsdigit s then some (strToInt s)
  else if strContains s "-" then
    let p0 := pyStrip (firstHyphenPart s)
    if pyIsdigit p0 then some (strToInt p0) else none
  else none

/-- Interpolation of `suggestion.get(k, d)` into an f-string. -/
def getStrField (l : List (String × Json)) (k : String) (d : String) : String :=
  match dictGet l k with
  | some v => pyStrOf v
  | none => d

/-- `acc += suggestion.get(k, ...)` with empty-string default: concatenation raises
`TypeError` when the value present is not a string. -/
def getStrConcat (l : List (String × Json)) (k : String) : Except String String :=
  match dictGet l k with
  | none => Except.ok ""
  | some (Json.str s) => Except.ok s
  | some _ => Except.error "TypeError: can only concatenate str"

/-- One pending line comment (an element of `file_comments`). -/
structure FileComment where
  path : Json
  line : Int
  body : String
deriving Repr, DecidableEq

/-- The review submitted by `pr.create_review`. -/
structure Review where
  body : String
  event : String
  comments : List FileComment
deriving Repr, DecidableEq

/-- One iteration of the suggestion loop in `post_line_comments`
(github_integration.py 131-155): `none` means the suggestion contributes
no line comment; `error` models a raised `TypeError` (non-dict
suggestion reached by `"file" in suggestion` / indexing). -/
def suggestion_comment (sug : Json) : Except String (Option FileComment) :=
  match sug with
  | Json.obj l =>
      if (dictGet l "file").isSome && (dictGet l "line").isSome then
        let file_path := (dictGet l "file").getD Json.null
        let line_info := (dictGet l "line").getD Json.null
        match line_anchor line_info with
        | some n =>
            if n ≠ 0 then
              match getStrConcat l "description" with
              | Except.error e => Except.error e
              | Except.ok desc =>
                  let body :=
                    "**" ++ getStrField l "category" "評論" ++ " (" ++
                      getStrField l "severity" "提示" ++ ")**\n\n" ++ desc
                  let body :=
                    if pyTruthy ((dictGet l "suggestion").getD Json.null) then
                      body ++ "\n\n**建議**: " ++ pyStrOf ((dictGet l "suggestion").getD Json.null)
                    else body
                  Except.ok (some ⟨file_path, n, body⟩)
            else Except.ok none
        | none => Except.ok none
      else Except.ok none
  | Json.str s =>
      if strContains s "file" && strContains s "line" then
        Except.error "TypeError: string indices must be integers"
      else Except.ok none
  | Json.arr l =>
      if l.contains (Json.str "file") && l.contains (Json.str "line") then
        Except.error "TypeError: list indices must be integers"
      else Except.ok none
  | _ => Except.error "TypeError: argument is not iterable"

/-- The iterable produced by `for suggestion in suggestions`: lists give
their elements, strings their characters, dicts their keys; other values
raise `TypeError`. -/
def iterTargets (j : Json) : Except String (List Json) :=
  match j with
  | Json.arr l => Except.ok l
  | Json.str s => Except.ok (s.toList.map (fun c => Json.str (String.mk [c])))
  | Json.obj l => Except.ok (l.map (fun kv => Json.str kv.1))
  | _ => Except.error "TypeError: not iterable"

/-- The suggestion loop of `post_line_comments`, accumulating
`file_comments` in order. -/
def collectFileComments : List Json → Except String (List FileComment)
  | [] => Except.ok []
  | s :: rest =>
      match suggestion_comment s with
      | Except.error e => Except.error e
      | Except.ok none => collectFileComments rest
      | Except.ok (some c) =>
          match collectFileComments rest with
          | Except.error e => Except.error e
          | Except.ok cs => Except.ok (c :: cs)

/-- `GitHubIntegration.post_line_comments` (github_integration.py
113-173) after the PR object is fetched: collect the eligible line
comments; with at least one, submit exactly one review with event
`"COMMENT"` and an aggregate summary body; with none, return `None`
without submitting.  `ok (some r)` is the single submitted review,
`ok none` the no-op return, `error` a raised exception. -/
def post_line_comments (review_suggestions : Json) : Except String (Option Review) :=
  match review_suggestions with
  | Json.obj rl =>
      let suggestions := (dictGet rl "suggestions").getD (Json.arr [])
      match iterTargets suggestions with
      | Except.error e => Except.error e
      | Except.ok items =>
          match collectFileComments items with
          | Except.error e => Except.error e
          | Except.ok file_comments =>
              if !file_comments.isEmpty then
                let head := "# AI 程式碼審查\n\n**總體評估**: " ++
                  getStrField rl "overall_assessment" "無評估" ++ "\n\n"
                match getStrConcat rl "summary" with
                | Except.error e => Except.error e
                | Except.ok s =>
                    let s := if (dictGet rl "summary").isSome then s else "無總結"
                    Except.ok (some ⟨head ++ s, "COMMENT", file_comments⟩)
              else Except.ok none
  | _ => Except.error "AttributeError: object has no attribute get"

/-- One numbered subsection of the aggregate comment
(`GitHubIntegration._format_review_comment`, github_integration.py
195-213); non-dict suggestions raise (`.get` on a non-dict). -/
def format_suggestion_section (i : Nat) (sug : Json) : Except String String :=
  match sug with
  | Json.obj l =>
      let severity := getStrField l "severity" "info"
      let category := getStrField l "category" "一般"
      let sec := "### " ++ toString i ++ ". " ++ category ++ " (" ++ severity ++ ")\n\n"
      let sec := sec ++
        (if (dictGet l "file").isSome then
          "**文件**: `" ++ pyStrOf ((dictGet l "file").getD Json.null) ++ "`" ++
            (if (dictGet l "line").isSome then
              " **行**: " ++ pyStrOf ((dictGet l "line").getD Json.null)
            else "") ++ "\n\n"
        else "")
      let sec := sec ++
        (if (dictGet l "description").isSome then
          pyStrOf ((dictGet l "description").getD Json.null) ++ "\n\n"
        else "")
      let sec := sec ++
        (if (dictGet l "suggestion").isSome then
          "**建議**: " ++ pyStrOf ((dictGet l "suggestion").getD Json.null) ++ "\n\n"
        else "")
      Except.ok sec
  | _ => Except.error "AttributeError: object has no attribute get"

/-- The suggestion loop of `_format_review_comment`, numbering from
`i` (`enumerate(suggestions, 1)`). -/
def format_sections (i : Nat) : List Json → Except String String
  | [] => Except.ok ""
  | s :: rest =>
      match format_suggestion_section i s with
      | Except.error e => Except.error e
      | Except.ok sec =>
          match format_sections (i + 1) rest with
          | Except.error e => Except.error e
          | Except.ok tail => Except.ok (sec ++ tail)

/-- `GitHubIntegration._format_review_comment` (github_integration.py
175-217): the deterministic Markdown aggregate comment — title, overall
assessment, summary, one numbered subsection per suggestion, trailing
attribution footer. -/
def format_review_comment (review_suggestions : Json) : Except String String :=
  match review_suggestions with
  | Json.obj rl =>
      let comment := "# AI 程式碼審查\n\n" ++
        "**總體評估**: " ++ getStrField rl "overall_assessment" "無評估" ++ "\n\n" ++
        "## 摘要\n\n" ++ getStrField rl "summary" "無總結" ++ "\n\n"
      let suggestions := (dictGet rl "suggestions").getD (Json.arr [])
      if pyTruthy suggestions then
        match iterTargets suggestions with
        | Except.error e => Except.error e
        | Except.ok items =>
            match format_sections 1 items with
            | Except.error e => Except.error e
            | Except.ok body =>
                Except.ok (comment ++ "## 詳細建議\n\n" ++ body ++
                  "\n---\n*由 AI 程式碼審查工具自動生成*")
      else
        Except.ok (comment ++ "\n---\n*由 AI 程式碼審查工具自動生成*")
  | _ => Except.error "AttributeError: object has no attribute get"

mutual

/-- `ConfigManager._merge_configs` (config_manager.py 69-88): start from
a copy of the default dict and, for each user item in order, merge
recursively when both the current value and the user value are dicts
(`key in config and isinstance(config[key], dict) and isinstance(value,
dict)`), otherwise overwrite. -/
def merge_configs (config : List (String × Json)) : List (String × Json) → List (String × Json)
  | [] => config
  | (key, value) :: rest =>
      merge_configs (dictSet config key (merge_value (dictGet config key) value)) rest

/-- The value stored for one user item: a recursive merge when both the
current config value and the user value are dicts, the user value
otherwise. -/
def merge_value : Option Json → Json → Json
  | some (Json.obj dv), Json.obj uv => Json.obj (merge_configs dv uv)
  | _, v => v

end

/-- The character class `\w` of the tag regex `#(\w+)` (ASCII range). -/
def isWordChar (c : Char) : Bool :=
  c.isAlphanum || c = '_'

/-- `re.findall` of `#(\w+)` over text, fuelled by the input length so that
it reduces structurally (every recursive call strictly shortens the
list, so length fuel never runs out): every `#` followed by a non-empty
maximal run of word characters yields that run; scanning resumes after
the run. -/
def findTagsF : Nat → List Char → List String
  | 0, _ => []
  | _ + 1, [] => []
  | fuel + 1, '#' :: rest =>
      let w := rest.takeWhile isWordChar
      if w.isEmpty then findTagsF fuel rest
      else String.mk w :: findTagsF fuel (rest.drop w.length)
  | fuel + 1, _ :: rest => findTagsF fuel rest

/-- `re.findall` of `#(\w+)` on a character list. -/
def findTags (l : List Char) : List String :=
  findTagsF l.length l

/-- `ConfigManager.parse_pr_focus` (config_manager.py 90-112): a falsy
description yields `[]`; otherwise the first occurrence of
`AI-REVIEW-FOCUS:` is located (`re.search`), the regex `\s*` greedily
skips whitespace (including newlines), the lazy group `(.*?)(?:\n|$)`
captures up to the next newline or the end, the capture is stripped and
its `#tag` tokens collected; with no marker the result is `[]`. -/
def parse_pr_focus (pr_description : Option String) : List String :=
  match pr_description with
  | none => []
  | some d =>
      if d = "" then []
      else
        match findSub d "AI-REVIEW-FOCUS:" with
        | none => []
        | some i =>
            let after := d.toList.drop (i + 16)
            let afterWs := after.dropWhile pyIsSpace
            let captured := afterWs.takeWhile (fun c => c ≠ '\n')
            findTags (pyStrip (String.mk captured)).toList

/-- `ConfigManager.get_review_focus` (config_manager.py 114-131): the
PR-level tags when the description is truthy and yields at least one
tag, the configured `review_focus` default otherwise — never a merge of
the two. -/
def get_review_focus (config : List (String × Json)) (pr_description : Option String) : Json :=
  let default_focus := (dictGet config "review_focus").getD (Json.arr [])
  let pr_focus :=
    match pr_description with
    | some d => if d ≠ "" then parse_pr_focus (some d) else []
    | none => []
  if !pr_focus.isEmpty then Json.arr (pr_focus.map Json.str) else default_focus

/-- Process state visible to `generate_xml`: the working directory. -/
structure SysState where
  cwd : String
deriving Repr, DecidableEq

/-- The exceptions `generate_xml` can raise. -/
inductive PyExc where
  | calledProcessError : PyExc
  | fileNotFoundError : String → PyExc
  | osError : PyExc
deriving Repr, DecidableEq

/-- `RepomixHandler.generate_xml` (repomix_handler.py 37-92) as a state
transformer.  `chdirOk` is whether `os.chdir(self.repo_path)` succeeds,
`runOk` whether the external `repomix` process exits zero
(`subprocess.run(check=True)`), `outExists` the file-existence oracle
after the run, `tempDir` the directory `tempfile.mkdtemp` would return.
Every exit path runs the `finally` clause `os.chdir(original_dir)`. -/
def generate_xml (repo_path : String) (output_path : Option String) (tempDir : String)
    (chdirOk runOk : Bool) (outExists : String → Bool) (st : SysState) :
    SysState × Except PyExc String :=
  let original_dir := st.cwd
  if repo_path ≠ "" && repo_path ≠ original_dir && !chdirOk then
    (⟨original_dir⟩, Except.error PyExc.osError)
  else
    let outPath :=
      match output_path with
      | some p => if p ≠ "" then p else tempDir ++ "/repo.xml"
      | none => tempDir ++ "/repo.xml"
    if !runOk then (⟨original_dir⟩, Except.error PyExc.calledProcessError)
    else if !outExists outPath then
      (⟨original_dir⟩, Except.error (PyExc.fileNotFoundError outPath))
    else (⟨original_dir⟩, Except.ok outPath)

/-- The line comment a suggestion contributes, when its processing does
not raise. -/
def commentOf (s : Json) : Option FileComment :=
  match suggestion_comment s with
  | Except.ok o => o
  | Except.error _ => none


/-- Entries of a concrete ReviewResult whose only suggestion has the
unresolvable line value `"abc"`. -/
def exampleAbcEntries : List (String × Json) :=
  [("summary", Json.str "S"), ("overall_assessment", Json.str "良好"),
    ("suggestions", Json.arr [Json.obj [("file", Json.str "b.py"), ("line", Json.str "abc"),
      ("description", Json.str "Unclear naming")]])]

/-- A concrete ReviewResult whose only suggestion has the unresolvable
line value `"abc"`. -/
def exampleAbcResult : Json :=
  Json.obj exampleAbcEntries

/-- A concrete ReviewResult whose only suggestion has line value `"0"`. -/
def exampleZeroResult : Json :=
  Json.obj [("summary", Json.str "S"), ("overall_assessment", Json.str "良好"),
    ("suggestions", Json.arr [Json.obj [("file", Json.str "c.py"), ("line", Json.str "0"),
      ("description", Json.str "Zero desc")]])]

/-- Entries of a concrete ReviewResult with a single eligible
suggestion and no summary field. -/
def exampleEligibleEntries : List (String × Json) :=
  [("suggestions", Json.arr [Json.obj [("file", Json.str "a.py"), ("line", Json.num 3)]])]

theorem dictGet_dictSet_self (l : List (String × Json)) (k : String) (v : Json) :
    dictGet (dictSet l k v) k = some v := by
  induction l with
  | nil => simp [dictGet, dictSet]
  | cons hd tl ih =>
      obtain ⟨k', v'⟩ := hd
      by_cases h : k' = k
      · simp [dictGet, dictSet, h]
      · simp [dictGet, dictSet, h, ih]

theorem dictGet_dictSet_ne (l : List (String × Json)) (k k' : String) (v : Json)
    (h : k' ≠ k) : dictGet (dictSet l k v) k' = dictGet l k' := by
  induction l with
  | nil => simp [dictGet, dictSet, Ne.symm h]
  | cons hd tl ih =>
      obtain ⟨k0, v0⟩ := hd
      by_cases h0 : k0 = k
      · subst h0
        simp [dictGet, dictSet, Ne.symm h]
      · by_cases h1 : k0 = k'
        · subst h1
          simp [dictGet, dictSet, h, h0]
        · simp [dictGet, dictSet, h0, h1, ih]

theorem dictGet_eq_none_of_not_mem (l : List (String × Json)) (k : String)
    (h : k ∉ l.map Prod.fst) : dictGet l k = none := by
  induction l with
  | nil => rfl
  | cons hd tl ih =>
      obtain ⟨k0, v0⟩ := hd
      simp only [List.map_cons, List.mem_cons] at h
      push_neg at h
      have h1 : ¬ k0 = k := fun hh => h.1 hh.symm
      simp [dictGet, h1, ih h.2]

/-- C9: `generate_xml` restores the working directory of the caller on every
exit path — success, non-zero exit of the external tool (raised
`CalledProcessError`), missing output file (raised `FileNotFoundError`),
and a failing directory change — via its `finally` clause. -/
theorem c9_generate_xml_restores_cwd (repo_path : String) (output_path : Option String)
    (tempDir : String) (chdirOk runOk : Bool) (outExists : String → Bool) (st : SysState) :
    ((generate_xml repo_path output_path tempDir chdirOk runOk outExists st).1).cwd = st.cwd := by
  unfold generate_xml
  dsimp only
  split
  · rfl
  · split
    · rfl
    · split
      · rfl
      · rfl

/-- C7: focus-tag extraction returns the `#tag` tokens after the
`AI-REVIEW-FOCUS:` marker — `["security", "perf"]` on the example — and
the empty list on any description without the marker, on the empty
description and on the absent description. -/
theorem c7_parse_pr_focus :
    parse_pr_focus (some "Intro line\nAI-REVIEW-FOCUS: #security #perf\nMore text")
      = ["security", "perf"]
    ∧ (∀ d : String, findSub d "AI-REVIEW-FOCUS:" = none → parse_pr_focus (some d) = [])
    ∧ parse_pr_focus none = []
    ∧ parse_pr_focus (some "") = [] := by
  refine ⟨by decide, ?_, rfl, by decide⟩
  intro d h
  unfold parse_pr_focus
  by_cases hd : d = ""
  · simp [hd]
  · simp [hd, h]

/-- Witness for `c7_parse_pr_focus`: the marker-free description
`"just a description"` yields no tags. -/
theorem c7_parse_pr_focus_witness :
    parse_pr_focus (some "just a description") = [] :=
  c7_parse_pr_focus.2.1 "just a description" (by decide)

/-- C8: the effective review focus is the PR-level tag list whenever
extraction yields a non-empty list, and the configured
`review_focus` default otherwise; the two sources are never merged. -/
theorem c8_get_review_focus (config : List (String × Json)) (desc : Option String) :
    (parse_pr_focus desc ≠ [] →
      get_review_focus config desc = Json.arr ((parse_pr_focus desc).map Json.str))
    ∧ (parse_pr_focus desc = [] →
      get_review_focus config desc = (dictGet config "review_focus").getD (Json.arr [])) := by
  have hfocus : (match desc with
      | some d => if d ≠ "" then parse_pr_focus (some d) else []
      | none => []) = parse_pr_focus desc := by
    cases desc with
    | none => rfl
    | some d =>
        by_cases hd : d = ""
        · simp [hd, parse_pr_focus]
        · simp [hd]
  constructor
  · intro h
    unfold get_review_focus
    rw [hfocus]
    simp [h]
  · intro h
    unfold get_review_focus
    rw [hfocus]
    simp [h]

/-- Witness for `c8_get_review_focus`: a description with tags overrides
the configured default, and a tagless description falls back to it. -/
theorem c8_get_review_focus_witness :
    get_review_focus [("review_focus", Json.arr [Json.str "security"])]
        (some "AI-REVIEW-FOCUS: #perf\n") = Json.arr [Json.str "perf"]
    ∧ get_review_focus [("review_focus", Json.arr [Json.str "security"])]
        (some "plain text") = Json.arr [Json.str "security"] :=
  ⟨(c8_get_review_focus _ _).1 (by decide), (c8_get_review_focus _ _).2 (by decide)⟩

/-- C1 (amended): response parsing first looks for a ```json fence; when
one is found, the closing delimiter is the LAST ``` occurrence in the
whole reply (`str.rfind`), and the result is exactly the JSON decoded
from the stripped text between the fence tag and that last fence,
whenever that text decodes; when no ```json fence is found and the
entire reply is valid JSON, the result is that JSON decoded directly. -/
theorem c1_parse_fenced_or_bare (loads : String → Except String Json) (r : String) (j : Json) :
    (∀ js je, findSub r "```json" = some js → rfindSub r "```" = some je →
      loads (pyStrip (pySlice r (js + 7) je)) = Except.ok j →
      parse_ai_response loads r = j)
    ∧ (findSub r "```json" = none → loads r = Except.ok j →
      parse_ai_response loads r = j) := by
  constructor
  · intro js je h1 h2 h3
    unfold parse_ai_response
    rw [h1, h2]
    dsimp only
    rw [h3]
  · intro h1 h2
    unfold parse_ai_response
    rw [h1]
    dsimp only
    rw [h2]

/-- Witness for `c1_parse_fenced_or_bare`: a fenced reply surrounded by
prose parses to the fenced JSON, and a bare-JSON reply parses to
itself. -/
theorem c1_parse_fenced_or_bare_witness :
    parse_ai_response jsonLoads "prose\n```json\n\x7b\"ok\": true\x7d\n```"
      = Json.obj [("ok", Json.bool true)]
    ∧ parse_ai_response jsonLoads "\x7b\"bare\": null\x7d"
      = Json.obj [("bare", Json.null)] :=
  ⟨(c1_parse_fenced_or_bare jsonLoads _ _).1 6 27 (by decide) (by decide) (by decide),
   (c1_parse_fenced_or_bare jsonLoads _ _).2 (by decide) (by decide)⟩

/-- Counterexample to C1 as stated: in the reply
`"```json\n\x7b\"a\": 1\x7d\n```\nsee ``` here"` a ```json fence is found
and a closing fence follows it, and the text inside the fence is exactly
`\x7b"a": 1\x7d`, which parses to the object `a ↦ 1`; but because the code
takes the LAST ``` (`str.rfind`) as the closing delimiter, the slice
also swallows the prose after the true closing fence, the decode raises,
and the parse-failure fallback object is returned instead of the fenced
JSON. -/
theorem c1_counterexample :
    findSub "```json\n\x7b\"a\": 1\x7d\n```\nsee ``` here" "```json" = some 0
    ∧ pySlice "```json\n\x7b\"a\": 1\x7d\n```\nsee ``` here" 7 17 = "\n\x7b\"a\": 1\x7d\n"
    ∧ pySlice "```json\n\x7b\"a\": 1\x7d\n```\nsee ``` here" 17 20 = "```"
    ∧ jsonLoads (pyStrip "\n\x7b\"a\": 1\x7d\n") = Except.ok (Json.obj [("a", Json.num 1)])
    ∧ parse_ai_response jsonLoads "```json\n\x7b\"a\": 1\x7d\n```\nsee ``` here"
        ≠ Json.obj [("a", Json.num 1)] := by
  refine ⟨by decide, by decide, by decide, by decide, by decide⟩

/-- C2: on any reply where the fenced decode attempt (if a fence is
present) and the whole-reply decode both fail, response parsing returns
— it is a total function, it cannot raise — an object whose
`overall_assessment` is the undetermined label, whose `raw_response`
preserves the reply verbatim, and whose `summary` is one of the two
parse-failure notices. -/
theorem c2_parse_failure_degrades (loads : String → Except String Json) (r : String)
    (h1 : ∀ js je, findSub r "```json" = some js → rfindSub r "```" = some je →
      ∃ e, loads (pyStrip (pySlice r (js + 7) je)) = Except.error e)
    (h2 : ∃ e, loads r = Except.error e) :
    jsonGet (parse_ai_response loads r) "overall_assessment" = some (Json.str "無法確定")
    ∧ jsonGet (parse_ai_response loads r) "raw_response" = some (Json.str r)
    ∧ (jsonGet (parse_ai_response loads r) "summary"
        = some (Json.str "無法解析 AI 回應為 JSON 格式")
      ∨ ∃ e, jsonGet (parse_ai_response loads r) "summary"
        = some (Json.str ("解析 AI 回應時出錯: " ++ e))) := by
  unfold parse_ai_response
  cases hfs : findSub r "```json" with
  | some js =>
      cases hrs : rfindSub r "```" with
      | some je =>
          obtain ⟨e, he⟩ := h1 js je hfs hrs
          dsimp only
          rw [he]
          refine ⟨by simp [jsonGet, dictGet], by simp [jsonGet, dictGet], Or.inr ⟨e, ?_⟩⟩
          simp [jsonGet, dictGet]
      | none =>
          obtain ⟨e, he⟩ := h2
          dsimp only
          rw [he]
          refine ⟨by simp [jsonGet, dictGet], by simp [jsonGet, dictGet], Or.inl ?_⟩
          simp [jsonGet, dictGet]
  | none =>
      obtain ⟨e, he⟩ := h2
      dsimp only
      rw [he]
      refine ⟨by simp [jsonGet, dictGet], by simp [jsonGet, dictGet], Or.inl ?_⟩
      simp [jsonGet, dictGet]

/-- Witness for `c2_parse_failure_degrades`: the reply
`"total garbage"` has no fence and is not JSON, and degrades to the
undetermined result with the reply preserved verbatim. -/
theorem c2_parse_failure_degrades_witness :
    jsonGet (parse_ai_response jsonLoads "total garbage") "overall_assessment"
      = some (Json.str "無法確定")
    ∧ jsonGet (parse_ai_response jsonLoads "total garbage") "raw_response"
      = some (Json.str "total garbage") := by
  have h := c2_parse_failure_degrades jsonLoads "total garbage"
    (by
      intro js je hjs hje
      rw [(by decide : findSub "total garbage" "```json" = none)] at hjs
      exact Option.noConfusion hjs)
    ⟨"Expecting value", by decide⟩
  exact ⟨h.1, h.2.1⟩

theorem collectFileComments_ok (items : List Json)
    (h : ∀ s ∈ items, ∃ o, suggestion_comment s = Except.ok o) :
    collectFileComments items = Except.ok (items.filterMap commentOf) := by
  induction items with
  | nil => rfl
  | cons s rest ih =>
      obtain ⟨o, ho⟩ := h s (by simp)
      have ih' := ih (fun t ht => h t (by simp [ht]))
      cases o with
      | none =>
          unfold collectFileComments
          rw [ho, ih']
          simp [List.filterMap_cons, commentOf, ho]
      | some c =>
          unfold collectFileComments
          rw [ho, ih']
          simp [List.filterMap_cons, commentOf, ho]

/-- C3: line-comment mapping policy.  A suggestion needs both a `file`
and a `line` field to be eligible; an int or digit-only string anchors
directly at its value; a value whose string form contains a hyphen
anchors at the digit-only stripped part before the first hyphen; every
other shape resolves no anchor and the suggestion contributes no line
comment, appearing only in the aggregate summary.  In particular `"42"`
anchors at 42, `"10-15"` at 10, and `"abc"` is excluded from line
comments while its description still appears in the aggregate comment. -/
theorem c3_line_comment_mapping :
    (∀ li : Json, isIntOrStr li = true → pyIsdigit (pyStrOf li) = true →
      line_anchor li = some (strToInt (pyStrOf li)))
    ∧ (∀ li : Json, pyIsdigit (pyStrOf li) = false →
      strContains (pyStrOf li) "-" = true →
      pyIsdigit (pyStrip (firstHyphenPart (pyStrOf li))) = true →
      line_anchor li = some (strToInt (pyStrip (firstHyphenPart (pyStrOf li)))))
    ∧ (∀ li : Json, pyIsdigit (pyStrOf li) = false →
      (strContains (pyStrOf li) "-" = false ∨
        pyIsdigit (pyStrip (firstHyphenPart (pyStrOf li))) = false) →
      line_anchor li = none)
    ∧ (∀ l : List (String × Json),
      dictGet l "file" = none ∨ dictGet l "line" = none → commentOf (Json.obj l) = none)
    ∧ (∀ (l : List (String × Json)) (li : Json), dictGet l "line" = some li →
      line_anchor li = none → commentOf (Json.obj l) = none)
    ∧ line_anchor (Json.str "42") = some 42
    ∧ line_anchor (Json.str "10-15") = some 10
    ∧ line_anchor (Json.str "abc") = none
    ∧ post_line_comments exampleAbcResult = Except.ok none
    ∧ (∃ doc, format_review_comment exampleAbcResult = Except.ok doc
        ∧ strContains doc "Unclear naming" = true) := by
  refine ⟨?_, ?_, ?_, ?_, ?_, by decide, by decide, by decide, by decide, ?_⟩
  · intro li h1 h2
    simp [line_anchor, h1, h2]
  · intro li h1 h2 h3
    simp [line_anchor, h1, h2, h3]
  · intro li h1 h2
    rcases h2 with h2 | h2
    · simp [line_anchor, h1, h2]
    · simp [line_anchor, h1, h2]
  · intro l h
    rcases h with h | h
    · simp [commentOf, suggestion_comment, h]
    · simp [commentOf, suggestion_comment, h]
  · intro l li hline hanchor
    by_cases hfile : (dictGet l "file").isSome
    · simp [commentOf, suggestion_comment, hfile, hline, hanchor]
    · simp [commentOf, suggestion_comment, hfile, hline]
  · exact ⟨"# AI 程式碼審查\n\n**總體評估**: 良好\n\n## 摘要\n\nS\n\n## 詳細建議\n\n### 1. 一般 (info)\n\n**文件**: `b.py` **行**: abc\n\nUnclear naming\n\n\n---\n*由 AI 程式碼審查工具自動生成*",
      by decide, by decide⟩

/-- Witness for `c3_line_comment_mapping`: `"007"` is digit-only and
anchors at 7, and a suggestion without a `file` field contributes no
line comment. -/
theorem c3_line_comment_mapping_witness :
    line_anchor (Json.str "007") = some 7
    ∧ commentOf (Json.obj [("line", Json.str "9")]) = none := by
  constructor
  · rw [c3_line_comment_mapping.1 (Json.str "007") (by decide) (by decide)]
    decide
  · exact c3_line_comment_mapping.2.2.2.1 [("line", Json.str "9")] (Or.inl (by decide))

/-- C6: for a ReviewResult whose suggestions all process without raising
and whose `summary` field, if present, is a string: when at least one
suggestion is eligible for a line comment, exactly one review is
submitted and its event type is `"COMMENT"`; when none is eligible, no
review is submitted (`None` is returned, no error). -/
theorem c6_comment_event_or_noop (rl : List (String × Json)) (items : List Json)
    (hs : dictGet rl "suggestions" = some (Json.arr items))
    (hok : ∀ s ∈ items, ∃ o, suggestion_comment s = Except.ok o)
    (hsum : ∀ v, dictGet rl "summary" = some v → ∃ t, v = Json.str t) :
    (items.filterMap commentOf ≠ [] →
      ∃ r, post_line_comments (Json.obj rl) = Except.ok (some r)
        ∧ r.event = "COMMENT" ∧ r.comments = items.filterMap commentOf)
    ∧ (items.filterMap commentOf = [] →
      post_line_comments (Json.obj rl) = Except.ok none) := by
  constructor
  · intro hne
    have hsumstr : ∃ s, getStrConcat rl "summary" = Except.ok s := by
      unfold getStrConcat
      cases hv : dictGet rl "summary" with
      | none => exact ⟨"", rfl⟩
      | some v =>
          obtain ⟨t, ht⟩ := hsum v hv
          subst ht
          exact ⟨t, rfl⟩
    obtain ⟨s, hss⟩ := hsumstr
    refine ⟨⟨"# AI 程式碼審查\n\n**總體評估**: " ++
        getStrField rl "overall_assessment" "無評估" ++ "\n\n" ++
        (if (dictGet rl "summary").isSome then s else "無總結"), "COMMENT",
        items.filterMap commentOf⟩, ?_, rfl, rfl⟩
    simp only [post_line_comments]
    rw [hs]
    simp only [Option.getD, iterTargets]
    rw [collectFileComments_ok items hok]
    dsimp only
    rw [if_pos (by simpa using hne), hss]
  · intro he
    simp only [post_line_comments]
    rw [hs]
    simp only [Option.getD, iterTargets]
    rw [collectFileComments_ok items hok]
    dsimp only
    rw [if_neg (by simpa using he)]

/-- Witness for `c6_comment_event_or_noop`: one eligible suggestion
yields one `"COMMENT"` review; a result with only an ineligible
suggestion yields no review. -/
theorem c6_comment_event_or_noop_witness :
    (∃ r, post_line_comments (Json.obj exampleEligibleEntries) = Except.ok (some r)
      ∧ r.event = "COMMENT")
    ∧ post_line_comments exampleAbcResult = Except.ok none := by
  constructor
  · obtain ⟨r, hr, he, -⟩ :=
      (c6_comment_event_or_noop exampleEligibleEntries
        [Json.obj [("file", Json.str "a.py"), ("line", Json.num 3)]]
        (by decide)
        (by
          intro s hmem
          simp only [List.mem_singleton] at hmem
          subst hmem
          exact ⟨_, rfl⟩)
        (by
          intro v hv
          have hnone : dictGet exampleEligibleEntries "summary" = none := by decide
          rw [hnone] at hv
          exact Option.noConfusion hv)).1 (by decide)
    exact ⟨r, hr, he⟩
  · exact (c6_comment_event_or_noop exampleAbcEntries
        [Json.obj [("file", Json.str "b.py"), ("line", Json.str "abc"),
          ("description", Json.str "Unclear naming")]]
        (by decide)
        (by
          intro s hmem
          simp only [List.mem_singleton] at hmem
          subst hmem
          exact ⟨_, rfl⟩)
        (by
          intro v hv
          have hS : dictGet exampleAbcEntries "summary" = some (Json.str "S") := by decide
          rw [hS] at hv
          injection hv with h
          exact ⟨"S", h.symm⟩)).2 (by decide)

/-- C10: a line value that resolves to anchor 0 (`0`, `"0"`, `"0-5"`) is
excluded from line comments — `if line_number:` is false for 0 exactly
as for an unresolvable line — and such a suggestion appears only in the
aggregate summary comment. -/
theorem c10_zero_anchor_excluded :
    line_anchor (Json.num 0) = some 0
    ∧ line_anchor (Json.str "0") = some 0
    ∧ line_anchor (Json.str "0-5") = some 0
    ∧ (∀ (l : List (String × Json)) (li : Json), dictGet l "line" = some li →
      line_anchor li = some 0 → commentOf (Json.obj l) = none)
    ∧ post_line_comments exampleZeroResult = Except.ok none
    ∧ (∃ doc, format_review_comment exampleZeroResult = Except.ok doc
        ∧ strContains doc "Zero desc" = true) := by
  refine ⟨by decide, by decide, by decide, ?_, by decide, ?_⟩
  · intro l li hline hanchor
    by_cases hfile : (dictGet l "file").isSome
    · simp [commentOf, suggestion_comment, hfile, hline, hanchor]
    · simp [commentOf, suggestion_comment, hfile, hline]
  · exact ⟨"# AI 程式碼審查\n\n**總體評估**: 良好\n\n## 摘要\n\nS\n\n## 詳細建議\n\n### 1. 一般 (info)\n\n**文件**: `c.py` **行**: 0\n\nZero desc\n\n\n---\n*由 AI 程式碼審查工具自動生成*",
      by decide, by decide⟩

/-- Witness for `c10_zero_anchor_excluded`: a concrete suggestion with
line `"0"` and a `file` field contributes no line comment. -/
theorem c10_zero_anchor_excluded_witness :
    commentOf (Json.obj [("file", Json.str "c.py"), ("line", Json.str "0")]) = none :=
  c10_zero_anchor_excluded.2.2.2.1 [("file", Json.str "c.py"), ("line", Json.str "0")]
    (Json.str "0") (by decide) (by decide)

/-- Counterexample to C4 as stated: for a 500 response with body
`"secret-body"`, `analyze_code` raises an error that carries the status
code but NOT the response body — the body is only logged, and the
raised message does not contain it. -/
theorem c4_counterexample :
    analyze_code jsonLoads ⟨500, "secret-body", Except.ok Json.null⟩
      = Except.error "AI API 調用失敗: 500"
    ∧ strContains "AI API 調用失敗: 500" "secret-body" = false := by
  exact ⟨by decide, by decide⟩

/-- C4 (amended): for every LLM HTTP response whose status code is not
200, `analyze_code` raises an error carrying the response status —
`f"AI API 調用失敗: \x7bstatus\x7d"` — which is re-raised by the outer
handler and surfaced to the caller, not swallowed; the response body is
logged but not carried on the error. -/
theorem c4_non_200_raises (loads : String → Except String Json) (resp : HttpResponse)
    (h : resp.status_code ≠ 200) :
    analyze_code loads resp
      = Except.error ("AI API 調用失敗: " ++ toString resp.status_code) := by
  unfold analyze_code
  simp [h]

/-- Witness for `c4_non_200_raises`: a 404 response yields the
status-carrying error. -/
theorem c4_non_200_raises_witness :
    analyze_code jsonLoads ⟨404, "not found", Except.ok Json.null⟩
      = Except.error "AI API 調用失敗: 404" := by
  rw [c4_non_200_raises jsonLoads ⟨404, "not found", Except.ok Json.null⟩ (by decide)]
  decide

/-- C5: config merging is recursive and key-wise.  For a user override
with unique keys (a Python dict), every key present in the override is
reflected in the merge — a dict value merges recursively with a dict
default (`merge_value`), any other value replaces the default outright —
and every key absent from the override retains its default value. -/
theorem c5_merge_configs (dl ul : List (String × Json))
    (hnodup : (ul.map Prod.fst).Nodup) (k : String) :
    (∀ v, dictGet ul k = some v →
      dictGet (merge_configs dl ul) k = some (merge_value (dictGet dl k) v))
    ∧ (dictGet ul k = none → dictGet (merge_configs dl ul) k = dictGet dl k) := by
  induction ul generalizing dl with
  | nil =>
      refine ⟨fun v hv => ?_, fun _ => rfl⟩
      exact Option.noConfusion hv
  | cons hd rest ih =>
      obtain ⟨k0, v0⟩ := hd
      simp only [List.map_cons, List.nodup_cons] at hnodup
      obtain ⟨hk0, hrest⟩ := hnodup
      have hrest0 : dictGet rest k0 = none := by
        apply dictGet_eq_none_of_not_mem
        exact hk0
      constructor
      · intro v hv
        by_cases hk : k0 = k
        · subst hk
          have hv0 : v = v0 := by
            simp [dictGet] at hv
            exact hv.symm
          subst hv0
          show dictGet (merge_configs (dictSet dl k0 (merge_value (dictGet dl k0) v)) rest) k0
            = some (merge_value (dictGet dl k0) v)
          rw [(ih (dictSet dl k0 (merge_value (dictGet dl k0) v)) hrest).2 hrest0]
          exact dictGet_dictSet_self dl k0 (merge_value (dictGet dl k0) v)
        · have hv' : dictGet rest k = some v := by
            simpa [dictGet, hk] using hv
          show dictGet (merge_configs (dictSet dl k0 (merge_value (dictGet dl k0) v0)) rest) k
            = some (merge_value (dictGet dl k) v)
          rw [(ih (dictSet dl k0 (merge_value (dictGet dl k0) v0)) hrest).1 v hv',
            dictGet_dictSet_ne dl k0 k (merge_value (dictGet dl k0) v0) (fun hh => hk hh.symm)]
      · intro hv
        have hk : ¬ k0 = k := by
          intro hh
          subst hh
          simp [dictGet] at hv
        have hv' : dictGet rest k = none := by
          simpa [dictGet, hk] using hv
        show dictGet (merge_configs (dictSet dl k0 (merge_value (dictGet dl k0) v0)) rest) k
          = dictGet dl k
        rw [(ih (dictSet dl k0 (merge_value (dictGet dl k0) v0)) hrest).2 hv',
          dictGet_dictSet_ne dl k0 k (merge_value (dictGet dl k0) v0) (fun hh => hk hh.symm)]

/-- Witness for `c5_merge_configs`: overriding the nested `ai.model`
keeps the sibling `ai.max_tokens` default, adds the new key `x`, and
leaves the untouched key `review_focus` at its default. -/
theorem c5_merge_configs_witness :
    dictGet (merge_configs
        [("review_focus", Json.arr [Json.str "security"]),
          ("ai", Json.obj [("model", Json.str "claude-3-haiku-20240307"),
            ("max_tokens", Json.num 4000)])]
        [("ai", Json.obj [("model", Json.str "other-model")]), ("x", Json.num 1)]) "ai"
      = some (Json.obj [("model", Json.str "other-model"), ("max_tokens", Json.num 4000)])
    ∧ dictGet (merge_configs
        [("review_focus", Json.arr [Json.str "security"]),
          ("ai", Json.obj [("model", Json.str "claude-3-haiku-20240307"),
            ("max_tokens", Json.num 4000)])]
        [("ai", Json.obj [("model", Json.str "other-model")]), ("x", Json.num 1)])
        "review_focus"
      = some (Json.arr [Json.str "security"]) := by
  constructor
  · rw [(c5_merge_configs
        [("review_focus", Json.arr [Json.str "security"]),
          ("ai", Json.obj [("model", Json.str "claude-3-haiku-20240307"),
            ("max_tokens", Json.num 4000)])]
        [("ai", Json.obj [("model", Json.str "other-model")]), ("x", Json.num 1)]
        (by decide) "ai").1 (Json.obj [("model", Json.str "other-model")]) (by decide)]
    decide
  · rw [(c5_merge_configs
        [("review_focus", Json.arr [Json.str "security"]),
          ("ai", Json.obj [("model", Json.str "claude-3-haiku-20240307"),
            ("max_tokens", Json.num 4000)])]
        [("ai", Json.obj [("model", Json.str "other-model")]), ("x", Json.num 1)]
        (by decide) "review_focus").2 (by decide)]
    decide
